import Mathlib

/-!
Shallow embedding of the httpbox request-dispatch core
(src/router/mod.rs, src/http/mod.rs, src/service/bytes.rs),
with collaborator types that live outside those files modelled from the
specification. Theorems below check the frozen claims about routing,
dispatch, failure isolation, the streaming body adapter and the byte
generation service.
-/

namespace Httpbox

/-- HTTP method, a fixed enumeration (transport collaborator type). -/
inductive Method
  | GET | POST | PUT | DELETE | PATCH | HEAD | OPTIONS
  deriving DecidableEq, Repr

/-- Modelled from the spec: a Path Pattern segment of the uri_path
collaborator crate (not under src/) — either a literal string or a named
capture. -/
inductive PathSegment
  | literal (s : String)
  | capture (name : String)
  deriving DecidableEq, Repr

/-- Path Match: mapping from capture name to matched substring. -/
abbrev PathMatch := List (String × String)

/-- The raw inbound request as seen by the router: a method and the
request path split into segments. -/
structure HTTPRequest where
  method : Method
  pathSegments : List String
  deriving DecidableEq, Repr

/-- Modelled from the spec: a Route of the routes module (not under
src/) — an optional method specifier plus a templated path. -/
structure Route where
  method : Option Method
  segments : List PathSegment
  deriving DecidableEq, Repr

/-- Modelled from the spec: segment-by-segment matching of uri_path (not
under src/) — a literal must compare equal, a capture matches any single
non-empty segment and records the pair, segment counts must agree. -/
def matchSegments : List PathSegment → List String → Option PathMatch
  | [], [] => some []
  | PathSegment.literal s :: ps, r :: rs =>
      if s = r then matchSegments ps rs else none
  | PathSegment.capture n :: ps, r :: rs =>
      if r = "" then none else (matchSegments ps rs).map (fun pm => (n, r) :: pm)
  | _, _ => none

/-- Modelled from the spec: Route matching (routes module, not under
src/) — method-sensitive unless the pattern is method-agnostic, then
path matching segment by segment. -/
def Route.matches (route : Route) (req : HTTPRequest) : Option PathMatch :=
  match route.method with
  | some m =>
      if m = req.method then matchSegments route.segments req.pathSegments else none
  | none => matchSegments route.segments req.pathSegments

/-- Modelled from the spec: crate's http Error (not under src/) — a
status code and an optional human-readable message. -/
structure Error where
  status : Nat
  message : Option String
  deriving DecidableEq, Repr

/-- A typed response header (crate::headers collaborator). -/
inductive Header
  | contentType (v : String)
  | contentLength (v : Nat)
  deriving DecidableEq, Repr

/-- A body chunk: a sequence of bytes. -/
abbrev Chunk := List Nat

/-- A Response: status code, header set, body as a chunk sequence. -/
structure Response where
  status : Nat
  headers : List Header
  body : List Chunk
  deriving DecidableEq, Repr

/-- Outcome of one handler invocation: a Response, a modelled Error, or
a catastrophic runtime fault carrying its (never leaked) payload. -/
inductive HandlerOutcome
  | ok (resp : Response)
  | err (e : Error)
  | panicked (msg : String)
  deriving DecidableEq, Repr

/-- The normalized Request handed to handlers: raw request, optional
peer address, and the Path Match of the endpoint that matched. -/
structure Request where
  raw : HTTPRequest
  client_addr : Option String
  matched_path : PathMatch

/-- Corresponds to Request::new in the source. -/
def Request.new (raw : HTTPRequest) (addr : Option String) (pm : PathMatch) : Request :=
  ⟨raw, addr, pm⟩

/-- Modelled from the spec: crate's http not_found helper (not under
src/) — the routing-miss Error with status 404. -/
def not_found : Error := ⟨404, none⟩

/-- Modelled from the spec: crate's http internal_server_error helper
(not under src/) — the fixed 500 Error with no details. -/
def internal_server_error : Error := ⟨500, none⟩

/-- Modelled from the spec: crate's http bad_request helper (not under
src/) — the 400 Error. -/
def bad_request : Error := ⟨400, none⟩

/-- Bytes of a message string. -/
def strBytes (s : String) : Chunk := s.toList.map Char.toNat

/-- Modelled from the spec: the body derived from an Error message. -/
def messageBody : Option String → List Chunk
  | none => []
  | some m => [strBytes m]

/-- The transport-level failure type (hyper's http Error). -/
inductive HyperError
  | mk
  deriving DecidableEq, Repr

/-- Modelled from the spec: Error::into_result (not under src/) —
deterministic conversion of an Error into a Response with that status
and a body derived from the message. -/
def Error.into_result (e : Error) : Except HyperError Response :=
  Except.ok { status := e.status, headers := [], body := messageBody e.message }

/-- An Endpoint binds one Route to one handler. -/
structure Endpoint where
  route : Route
  handler : Request → HandlerOutcome

/-- Corresponds to Endpoint::new in the source. -/
def Endpoint.new (route : Route) (handler : Request → HandlerOutcome) : Endpoint :=
  ⟨route, handler⟩

/-- Router Configuration: the mutable ordered list of Endpoints. -/
structure RouterBuilder where
  endpoints : List Endpoint

/-- Corresponds to RouterBuilder::new. -/
def RouterBuilder.new : RouterBuilder := ⟨[]⟩

/-- Corresponds to RouterBuilder::install: push one Endpoint at the end
and return the builder. -/
def RouterBuilder.install (b : RouterBuilder) (handler : Request → HandlerOutcome)
    (route : Route) : RouterBuilder :=
  { endpoints := b.endpoints ++ [Endpoint.new route handler] }

/-- Corresponds to RouterBuilder::routes: the registered patterns. -/
def RouterBuilder.routes (b : RouterBuilder) : List Route :=
  b.endpoints.map Endpoint.route

/-- The immutable Route Table. -/
structure RouterInternal where
  endpoints : List Endpoint

/-- Corresponds to RouterBuilder::build. -/
def RouterBuilder.build (b : RouterBuilder) : RouterInternal :=
  ⟨b.endpoints⟩

/-- Corresponds to RouterInternal::route: find_map over the endpoints in
registration order. -/
def RouterInternal.route (r : RouterInternal) (req : HTTPRequest) :
    Option (Endpoint × PathMatch) :=
  r.endpoints.findSome? (fun endpoint =>
    (endpoint.route.matches req).map (fun params => (endpoint, params)))

/-- A sequence of install calls on a builder, for stating properties of
whole registration sequences. -/
def installList (b : RouterBuilder) :
    List ((Request → HandlerOutcome) × Route) → RouterBuilder
  | [] => b
  | (h, r) :: rest => installList (b.install h r) rest

/-- The Dispatcher: shared Route Table reference plus peer address. -/
structure RouterService where
  router : RouterInternal
  client_addr : Option String

/-- The polling context handed to poll_ready (opaque to this core). -/
inductive PollContext
  | mk

/-- The poll result type of the service abstraction. -/
inductive Poll (α : Type)
  | ready (a : α)
  | pending
  deriving DecidableEq, Repr

/-- Corresponds to RouterService::poll_ready: always Ready(Ok(())). -/
def RouterService.poll_ready (_svc : RouterService) (_cx : PollContext) :
    Poll (Except HyperError Unit) :=
  Poll.ready (Except.ok ())

/-- Corresponds to handle_panics: a caught catastrophic fault becomes
the internal_server_error Error, discarding the fault payload; modelled
outcomes pass through. -/
def handle_panics : HandlerOutcome → Except Error Response
  | HandlerOutcome.panicked _ => Except.error internal_server_error
  | HandlerOutcome.err e => Except.error e
  | HandlerOutcome.ok resp => Except.ok resp

/-- Corresponds to RouterService::call: route lookup (miss raised as
not_found), handler invocation inside handle_panics, and the trailing
or_else converting every Error via into_result. -/
def RouterService.call (svc : RouterService) (req : HTTPRequest) :
    Except HyperError Response :=
  match svc.router.route req with
  | none => not_found.into_result
  | some (endpoint, matched_path) =>
    match handle_panics (endpoint.handler (Request.new req svc.client_addr matched_path)) with
    | Except.ok resp => Except.ok resp
    | Except.error e => e.into_result

/-- Corresponds to ok_stream: wrap every item of the stream as a success
value; the error type is the uninhabited Infallible, modelled as Empty. -/
def ok_stream {α : Type} (s : List α) : List (Except Empty α) :=
  s.map Except.ok

/-- Modelled from the spec: hyper's Body::wrap_stream (collaborator) —
the transport pulls the successful items of the try-stream in order. -/
def wrap_stream {α : Type} (items : List (Except Empty α)) : List α :=
  items.map (fun it =>
    match it with
    | Except.ok c => c
    | Except.error e => e.elim)

/-- Corresponds to body_from_stream: compose ok_stream with the
transport body constructor. -/
def body_from_stream {α : Type} (s : List α) : List α :=
  wrap_stream (ok_stream s)

/-- Modelled from the spec: one step of the crate's random generator
rng (crate::random, not under src/) — any fixed deterministic state
transition; a 64-bit linear congruential step. -/
def rngStep (state : Nat) : Nat :=
  (state * 6364136223846793005 + 1442695040888963407) % (2 ^ 64)

/-- Modelled from the spec: rng(seed) (crate::random, not under src/) —
with an explicit seed the initial state is a function of the seed alone;
without a seed it is drawn from OS entropy, modelled as an explicit
entropy parameter. -/
def rng (seed : Option Nat) (entropy : Nat) : Nat :=
  match seed with
  | some s => s % (2 ^ 32)
  | none => entropy

/-- Draw n bytes from successive generator states. -/
def genBytes : Nat → Nat → List Nat
  | 0, _ => []
  | n + 1, st =>
      let st2 := rngStep st
      st2 % 256 :: genBytes n st2

/-- Corresponds to iter_bytes: count bytes drawn from rng(seed). -/
def iter_bytes (count : Nat) (seed : Option Nat) (entropy : Nat) : List Nat :=
  genBytes count (rng seed entropy)

/-- Corresponds to BytesQueryParams: optional seed and chunk_size. -/
structure BytesQueryParams where
  seed : Option Nat
  chunk_size : Option Nat
  deriving DecidableEq, Repr

/-- Corresponds to the bytes handler: missing n or unparsable query is a
bad_request Error; otherwise the generated bytes form one materialized
body with an octet-stream content type. -/
def bytes (nParam : Option Nat) (query : Option BytesQueryParams) (entropy : Nat) :
    HandlerOutcome :=
  match nParam with
  | none => HandlerOutcome.err bad_request
  | some n =>
    match query with
    | none => HandlerOutcome.err bad_request
    | some q =>
      let data := iter_bytes n q.seed entropy
      HandlerOutcome.ok
        { status := 200
        , headers := [Header.contentType "application/octet-stream"]
        , body := [data] }

/-- Group a byte list into chunks of size c + 1 (positive capacity). -/
def chunkList (c : Nat) : List Nat → List (List Nat)
  | [] => []
  | x :: xs => (x :: xs).take (c + 1) :: chunkList c (xs.drop c)
termination_by l => l.length
decreasing_by
  simp [List.length_drop]
  omega

/-- Modelled from the spec: the futures chunks adapter (collaborator) —
its precondition requires a non-zero capacity and it fails
catastrophically on capacity 0 (modelled as none); a positive capacity
groups the items in order. -/
def chunksOp (data : List Nat) : Nat → Option (List (List Nat))
  | 0 => none
  | c + 1 => some (chunkList c data)

/-- Corresponds to the stream_bytes handler: parse n and the query,
compute the exact content length upfront, then stream the bytes in
chunks of chunk_size (default 1). -/
def stream_bytes (nParam : Option Nat) (query : Option BytesQueryParams)
    (entropy : Nat) : HandlerOutcome :=
  match nParam with
  | none => HandlerOutcome.err bad_request
  | some n =>
    match query with
    | none => HandlerOutcome.err bad_request
    | some q =>
      let data := iter_bytes n q.seed entropy
      let chunk_size := q.chunk_size
      let content_length := data.length
      match chunksOp data (chunk_size.getD 1) with
      | none => HandlerOutcome.panicked "chunk capacity must be greater than zero"
      | some cs =>
        HandlerOutcome.ok
          { status := 200
          , headers := [Header.contentType "application/octet-stream",
                        Header.contentLength content_length]
          , body := body_from_stream cs }

/-! Helper lemmas shared by several claim theorems. -/

theorem findSome_none {α β : Type} (f : α → Option β) :
    ∀ l : List α, (∀ x ∈ l, f x = none) → l.findSome? f = none
  | [], _ => rfl
  | x :: xs, h => by
    have hx : f x = none := h x (List.mem_cons_self x xs)
    have hxs := findSome_none f xs (fun y hy => h y (List.mem_cons_of_mem x hy))
    simp [List.findSome?_cons, hx, hxs]

theorem findSome_first {α β : Type} (f : α → Option β) :
    ∀ (l : List α) (i : Nat) (hi : i < l.length) (b : β),
      f (l.get ⟨i, hi⟩) = some b →
      (∀ j, (hj : j < l.length) → j < i → f (l.get ⟨j, hj⟩) = none) →
      l.findSome? f = some b
  | [], i, hi, _, _, _ => absurd hi (by simp)
  | x :: xs, 0, _, b, hb, _ => by
    simp only [List.get] at hb
    simp [List.findSome?_cons, hb]
  | x :: xs, i + 1, hi, b, hb, hfirst => by
    have hx : f x = none := hfirst 0 (Nat.succ_pos _) (Nat.succ_pos i)
    have hrec := findSome_first f xs i (Nat.lt_of_succ_lt_succ hi) b hb
      (fun j hj hji => hfirst (j + 1) (Nat.succ_lt_succ hj) (Nat.succ_lt_succ hji))
    simp [List.findSome?_cons, hx, hrec]

theorem installList_endpoints (regs : List ((Request → HandlerOutcome) × Route)) :
    ∀ b : RouterBuilder,
      (installList b regs).endpoints
        = b.endpoints ++ regs.map (fun p => Endpoint.new p.2 p.1) := by
  induction regs with
  | nil => intro b; simp [installList]
  | cons p rest ih =>
    intro b
    cases p with
    | mk h r =>
      simp [installList, RouterBuilder.install, ih]

theorem genBytes_length (n : Nat) : ∀ st : Nat, (genBytes n st).length = n := by
  induction n with
  | zero => intro st; rfl
  | succ k ih => intro st; simp [genBytes, ih]

theorem wrap_ok_stream {α : Type} (s : List α) :
    wrap_stream (ok_stream s) = s := by
  induction s with
  | nil => rfl
  | cons x xs ih => simpa [wrap_stream, ok_stream] using ih

theorem chunkList_zero (l : List Nat) : chunkList 0 l = l.map (fun x => [x]) := by
  induction l with
  | nil => simp [chunkList]
  | cons x xs ih => simp [chunkList, ih]

theorem flatten_map_singleton (l : List Nat) : (l.map (fun x => [x])).flatten = l := by
  induction l with
  | nil => rfl
  | cons x xs ih => simp [ih]

/-! Concrete fixtures used by witness theorems. -/

def respA : Response := ⟨200, [], [[1]]⟩

def respB : Response := ⟨200, [], [[2]]⟩

def wRoute : Route := ⟨some Method.GET, []⟩

def wEndpointA : Endpoint := Endpoint.new wRoute (fun _ => HandlerOutcome.ok respA)

def wEndpointB : Endpoint := Endpoint.new wRoute (fun _ => HandlerOutcome.ok respB)

def wTable : RouterInternal := ⟨[wEndpointA, wEndpointB]⟩

def wReq : HTTPRequest := ⟨Method.GET, []⟩

def wMissReq : HTTPRequest := ⟨Method.POST, []⟩

/-! Claim theorems. -/

/-- C1: Route Table lookup iterates the registered Endpoints in
registration order and returns the first Endpoint whose pattern matches
the request together with its PathMatch (so of two matching Endpoints
the earlier one wins and a later one is never returned); if no pattern
matches, lookup returns none. -/
theorem route_first_match (rt : RouterInternal) (req : HTTPRequest) :
    ((∀ e ∈ rt.endpoints, e.route.matches req = none) → rt.route req = none)
    ∧ (∀ i, (hi : i < rt.endpoints.length) → ∀ pm : PathMatch,
        (rt.endpoints.get ⟨i, hi⟩).route.matches req = some pm →
        (∀ j, (hj : j < rt.endpoints.length) → j < i →
          (rt.endpoints.get ⟨j, hj⟩).route.matches req = none) →
        rt.route req = some (rt.endpoints.get ⟨i, hi⟩, pm)) := by
  constructor
  · intro h
    apply findSome_none
    intro e he
    simp [h e he]
  · intro i hi pm hmatch hfirst
    apply findSome_first _ rt.endpoints i hi
    · simp only [List.get_eq_getElem] at hmatch ⊢
      simp [hmatch]
    · intro j hj hji
      have hn := hfirst j hj hji
      simp only [List.get_eq_getElem] at hn ⊢
      simp [hn]

/-- Witness for C1: a table with two overlapping Endpoints resolves a
matching request to the first one, and a request matching neither
pattern resolves to none. -/
theorem route_first_match_witness :
    wTable.route wMissReq = none ∧ wTable.route wReq = some (wEndpointA, []) := by
  constructor
  · apply (route_first_match wTable wMissReq).1
    intro e he
    simp only [wTable] at he
    rcases List.mem_cons.mp he with rfl | he2
    · rfl
    rcases List.mem_cons.mp he2 with rfl | he3
    · rfl
    · exact absurd he3 (List.not_mem_nil e)
  · have h := (route_first_match wTable wReq).2 0 (by simp [wTable]) []
      (by rfl) (fun j hj hj0 => absurd hj0 (Nat.not_lt_zero j))
    simpa [wTable] using h

/-- C2: a request matching no registered Endpoint (the empty table
included) completes with an Ok Response of status 404, never a
transport-level failure. -/
theorem call_routing_miss (svc : RouterService) (req : HTTPRequest)
    (h : ∀ e ∈ svc.router.endpoints, e.route.matches req = none) :
    ∃ resp : Response, svc.call req = Except.ok resp ∧ resp.status = 404 := by
  have hnone : svc.router.route req = none := by
    apply findSome_none
    intro e he
    simp [h e he]
  refine ⟨⟨404, [], []⟩, ?_, rfl⟩
  simp [RouterService.call, hnone, not_found, Error.into_result, messageBody]

/-- Witness for C2: the empty route table answers any request with an
Ok Response of status 404. -/
theorem call_routing_miss_witness :
    ∃ resp : Response,
      RouterService.call ⟨⟨[]⟩, none⟩ wReq = Except.ok resp ∧ resp.status = 404 :=
  call_routing_miss ⟨⟨[]⟩, none⟩ wReq (by intro e he; simp at he)

/-- C5: poll_ready answers Ready(Ok(())) for every service state and
every polling context, never Pending and never an error. -/
theorem poll_ready_always_ready (svc : RouterService) (cx : PollContext) :
    svc.poll_ready cx = Poll.ready (Except.ok ()) := rfl

/-- C6: install appends exactly one Endpoint at the end of the list,
routes returns exactly the registered patterns in registration order
without handlers, and build preserves the registration sequence; this
holds for every whole sequence of install calls. -/
theorem builder_registration_order (b : RouterBuilder)
    (handler : Request → HandlerOutcome) (r : Route)
    (regs : List ((Request → HandlerOutcome) × Route)) :
    (b.install handler r).endpoints = b.endpoints ++ [Endpoint.new r handler]
    ∧ b.routes = b.endpoints.map Endpoint.route
    ∧ b.build.endpoints = b.endpoints
    ∧ (installList RouterBuilder.new regs).build.endpoints
        = regs.map (fun p => Endpoint.new p.2 p.1)
    ∧ (installList RouterBuilder.new regs).routes = regs.map (fun p => p.2) := by
  refine ⟨rfl, rfl, rfl, ?_, ?_⟩
  · simp [RouterBuilder.build, installList_endpoints, RouterBuilder.new]
  · simp [RouterBuilder.routes, installList_endpoints, RouterBuilder.new,
      Endpoint.route, Endpoint.new, List.map_map, Function.comp]

/-- C3: when the matched handler fails catastrophically, the Dispatcher
completes the request with exactly one Ok Response of status 500, empty
headers and empty body — a constant independent of the fault payload,
so no detail of the fault is leaked, and the fault never surfaces as a
transport-level failure. -/
theorem call_panic_isolated (svc : RouterService) (req : HTTPRequest)
    (endpoint : Endpoint) (pm : PathMatch) (msg : String)
    (hroute : svc.router.route req = some (endpoint, pm))
    (hpanic : endpoint.handler (Request.new req svc.client_addr pm)
      = HandlerOutcome.panicked msg) :
    svc.call req = Except.ok ⟨500, [], []⟩ := by
  simp [RouterService.call, hroute, hpanic, handle_panics, internal_server_error,
    Error.into_result, messageBody]

/-- Witness for C3: a route table with one always-panicking handler
answers the matching request with the Ok 500 Response. -/
theorem call_panic_isolated_witness :
    RouterService.call
        ⟨⟨[Endpoint.new wRoute (fun _ => HandlerOutcome.panicked "boom")]⟩, none⟩ wReq
      = Except.ok ⟨500, [], []⟩ :=
  call_panic_isolated
    ⟨⟨[Endpoint.new wRoute (fun _ => HandlerOutcome.panicked "boom")]⟩, none⟩ wReq
    (Endpoint.new wRoute (fun _ => HandlerOutcome.panicked "boom")) [] "boom" rfl rfl

/-- C4: a handler returning an explicit Error with status s and a
message is converted deterministically into an Ok Response with status
s whose body is the bytes of the message; with s = 400 this gives a
400 Response carrying the message payload. -/
theorem call_handler_error (svc : RouterService) (req : HTTPRequest)
    (endpoint : Endpoint) (pm : PathMatch) (s : Nat) (m : String)
    (hroute : svc.router.route req = some (endpoint, pm))
    (herr : endpoint.handler (Request.new req svc.client_addr pm)
      = HandlerOutcome.err ⟨s, some m⟩) :
    svc.call req = Except.ok ⟨s, [], [strBytes m]⟩ := by
  simp [RouterService.call, hroute, herr, handle_panics, Error.into_result, messageBody]

/-- Witness for C4: a handler reporting a 400 Error with message bad
yields the Ok 400 Response whose body holds exactly that message. -/
theorem call_handler_error_witness :
    RouterService.call
        ⟨⟨[Endpoint.new wRoute (fun _ => HandlerOutcome.err ⟨400, some "bad"⟩)]⟩, none⟩ wReq
      = Except.ok ⟨400, [], [strBytes "bad"]⟩ :=
  call_handler_error
    ⟨⟨[Endpoint.new wRoute (fun _ => HandlerOutcome.err ⟨400, some "bad"⟩)]⟩, none⟩ wReq
    (Endpoint.new wRoute (fun _ => HandlerOutcome.err ⟨400, some "bad"⟩)) [] 400 "bad"
    rfl rfl

/-- C7: the Streaming Body Adapter preserves the chunk sequence exactly
(hence concatenated bytes equal the concatenation of the input chunks,
and the empty sequence gives an empty body), and ok_stream wraps every
produced item as a success value of the uninhabited-error try-stream. -/
theorem body_stream_preserves_chunks (chunks : List Chunk) :
    body_from_stream chunks = chunks
    ∧ (body_from_stream chunks).flatten = chunks.flatten
    ∧ body_from_stream ([] : List Chunk) = []
    ∧ ∀ it ∈ ok_stream chunks, ∃ c : Chunk, it = Except.ok c := by
  refine ⟨wrap_ok_stream chunks, by rw [body_from_stream, wrap_ok_stream], rfl, ?_⟩
  intro it hit
  simp only [ok_stream, List.mem_map] at hit
  rcases hit with ⟨c, _, rfl⟩
  exact ⟨c, rfl⟩

/-- Witness for C7: the adapter maps a concrete two-chunk sequence to
itself, and a concrete produced item is a success value. -/
theorem body_stream_preserves_chunks_witness :
    body_from_stream [[1, 2], [3]] = [[1, 2], [3]]
    ∧ ∃ c : Chunk, (Except.ok [1, 2] : Except Empty Chunk) = Except.ok c :=
  ⟨(body_stream_preserves_chunks [[1, 2], [3]]).1,
   (body_stream_preserves_chunks [[1, 2], [3]]).2.2.2 (Except.ok [1, 2])
     (by simp [ok_stream])⟩

/-- C8: with an explicit seed, iter_bytes is independent of the entropy
source — two evaluations with the same count and seed agree byte for
byte — its output has length exactly the count, and consequently the
bytes handler produces identical outcomes for two requests with the
same seed and count regardless of entropy or chunk_size query noise. -/
theorem iter_bytes_deterministic (n s e1 e2 : Nat) (c1 c2 : Option Nat) :
    iter_bytes n (some s) e1 = iter_bytes n (some s) e2
    ∧ (iter_bytes n (some s) e1).length = n
    ∧ bytes (some n) (some ⟨some s, c1⟩) e1 = bytes (some n) (some ⟨some s, c2⟩) e2 :=
  ⟨rfl, genBytes_length n _, rfl⟩

/-- C9: a request with an explicit chunk_size of 0 is not rejected as a
400 bad request: it passes query parsing and reaches the chunking
operation, which fails catastrophically; the isolation boundary turns
that fault into the internal_server_error (status 500), so the client
only ever sees a 500. -/
theorem stream_bytes_zero_chunk (n e : Nat) (sd : Option Nat) :
    (∃ m : String,
      stream_bytes (some n) (some ⟨sd, some 0⟩) e = HandlerOutcome.panicked m)
    ∧ handle_panics (stream_bytes (some n) (some ⟨sd, some 0⟩) e)
        = Except.error internal_server_error
    ∧ internal_server_error.status = 500
    ∧ bad_request.status = 400 :=
  ⟨⟨"chunk capacity must be greater than zero", rfl⟩, rfl, rfl, rfl⟩

/-- C10: for valid parameters the stream_bytes handler answers with an
Ok Response carrying a Content-Length header equal to exactly n, both
for an explicit positive chunk_size and for an absent one; when
chunk_size is absent the body is chunked with the default chunk size of
1, every chunk holding exactly one byte and the chunks concatenating
back to the generated bytes. -/
theorem stream_bytes_content_length (n e c : Nat) (sd : Option Nat) :
    (∃ resp : Response,
      stream_bytes (some n) (some ⟨sd, some (c + 1)⟩) e = HandlerOutcome.ok resp
      ∧ Header.contentLength n ∈ resp.headers)
    ∧ (∃ resp : Response,
      stream_bytes (some n) (some ⟨sd, none⟩) e = HandlerOutcome.ok resp
      ∧ Header.contentLength n ∈ resp.headers
      ∧ resp.body.flatten = iter_bytes n sd e
      ∧ ∀ ch ∈ resp.body, ch.length = 1) := by
  have hlen : (iter_bytes n sd e).length = n := genBytes_length n _
  constructor
  · refine ⟨_, rfl, ?_⟩
    simp [stream_bytes, chunksOp, hlen]
  · refine ⟨_, rfl, ?_, ?_, ?_⟩
    · simp [stream_bytes, chunksOp, hlen]
    · simp [stream_bytes, chunksOp, body_from_stream, wrap_ok_stream,
        chunkList_zero, flatten_map_singleton]
    · intro ch hch
      simp only [stream_bytes, chunksOp, body_from_stream, wrap_ok_stream,
        chunkList_zero, Option.getD] at hch
      simp only [List.mem_map] at hch
      rcases hch with ⟨b, _, rfl⟩
      rfl

/-- Witness for C10: a concrete request for 2 bytes with seed 5 and no
chunk_size yields an Ok Response with a Content-Length header of 2
whose body chunks each hold one byte. -/
theorem stream_bytes_content_length_witness :
    ∃ resp : Response,
      stream_bytes (some 2) (some ⟨some 5, none⟩) 0 = HandlerOutcome.ok resp
      ∧ Header.contentLength 2 ∈ resp.headers
      ∧ resp.body.flatten = iter_bytes 2 (some 5) 0
      ∧ ∀ ch ∈ resp.body, ch.length = 1 :=
  (stream_bytes_content_length 2 0 0 (some 5)).2

end Httpbox
